import Mathlib

/-!
# Verification of `SCons/Tool/ifort.py` (Intel Fortran tool initialization)

A shallow embedding of the toolchain-discovery and environment-resolution
logic of `src/SCons/Tool/ifort.py`, together with theorems settling the
frozen claims about it.

Modelling conventions:

* The host platform (`sys.platform` / `PROCESSOR_ARCHITECTURE`) is a
  parameter of type `Platform`.
* The filesystem is a parameter of type `FS`: each `glob.glob` pattern the
  source evaluates becomes a field holding that pattern's result list, and
  `os.path.exists` / `os.path.isdir` become boolean-valued fields.
* The Windows registry is a parameter of type `Registry` holding the
  subkey enumerations and `ProductDir` values the source reads.
* Optional / `None`-able Python strings become `Option String`; Python
  truthiness of such a value (`if not topdir:`) is `truthyOpt`.
* The effectful body of `generate` is embedded as a function returning the
  ordered list of effects it performs on the caller's environment together
  with an optional uncaught Python exception (`none` = normal return).
  An effect records which SCons environment API the source invokes
  (`env[name] = v`, `env[name].append(v)`, `env.AppendENVPath(var, p)`, ...).
-/

/-- Host platform: `is_windows` (with the `is_win64` sub-flag computed from
`PROCESSOR_ARCHITECTURE`), `is_linux`, or any other host (e.g. macOS), for
which both module-level flags are false. -/
inductive Platform where
  | windows (win64 : Bool)
  | linux
  | other
deriving DecidableEq

def Platform.isWindows : Platform → Bool
  | .windows _ => true
  | _ => false

def Platform.isWin64 : Platform → Bool
  | .windows b => b
  | _ => false

/-- `os.path.sep` of the host the module runs on. -/
def pathSep : Platform → String
  | .windows _ => "\\"
  | _ => "/"

/-- `os.path.join(a, b)` for a non-empty `a` without trailing separator and a
relative `b`, the only shape the source joins. -/
def pjoin (plat : Platform) (a b : String) : String :=
  a ++ pathSep plat ++ b

/-- Python truthiness of an optional string: `None` and `""` are falsy. -/
def truthyOpt : Option String → Bool
  | none => false
  | some s => s != ""

/-- `"%s" % v` for a possibly-`None` string value. -/
def pyStrOfOpt : Option String → String
  | none => "None"
  | some s => s

/-- `repr(v)` for a possibly-`None` string value (quotes a plain string). -/
def pyRepr : Option String → String
  | none => "None"
  | some s => "'" ++ s ++ "'"

/-- Python `cur_ver == version` where `version` may be `None` (in Python a
string never equals `None`). -/
def pyEqOpt (s : String) (v : Option String) : Bool :=
  match v with
  | some w => s == w
  | none => false

/-- `version.replace(".", "")`: remove every dot. -/
def stripDots (s : String) : String :=
  String.mk (s.toList.filter (fun c => c != '.'))

/-- `needle` occurs contiguously in the list, i.e. at some start position it
is a prefix of the remaining suffix. -/
def listContains (needle : List Char) : List Char → Bool
  | [] => needle.isEmpty
  | c :: rest => needle.isPrefixOf (c :: rest) || listContains needle rest

/-- Python `a in b` on strings: `a` occurs as a contiguous substring of `b`. -/
def pyInStr (a b : String) : Bool :=
  listContains a.toList b.toList

/-- Characters admitted by the `[0-9.]` class of the version patterns. -/
def digitOrDot (c : Char) : Bool :=
  c.isDigit || c == '.'

/-!
## The version-extraction pattern

The source extracts versions from directory names with
`re.search(r"([0-9]{0,4})(?:_sp\d*)?\.([0-9][0-9.]*)$", d)` and, in the
`composerxe-` fallback, with `re.search(r"([0-9][0-9.]*)$", d)`.
`re.search` returns the match at the leftmost possible start position; both
patterns are anchored at the end of the string, so at a given start position
the trailing group must consume the entire remaining suffix.
-/

/-- Matcher for `\.([0-9][0-9.]*)$`: a literal dot, then a digit, then only
digits and dots up to the end of the string; returns group 2. -/
def matchDotTail : List Char → Option String
  | '.' :: c :: rest =>
    if c.isDigit && rest.all digitOrDot then some (String.mk (c :: rest)) else none
  | _ => none

/-- Matcher for `(?:_sp\d*)?\.([0-9][0-9.]*)$` after group 1: the optional
greedy `_sp\d*` infix is tried first, then the dot-anchored tail; returns
group 2. -/
def matchSpTail (l : List Char) : Option String :=
  match l with
  | '_' :: 's' :: 'p' :: rest =>
    match matchDotTail (rest.dropWhile Char.isDigit) with
    | some g2 => some g2
    | none => matchDotTail l
  | _ => matchDotTail l

/-- Attempt of the full pattern `([0-9]{0,4})(?:_sp\d*)?\.([0-9][0-9.]*)$`
at one start position.  The greedy bounded group 1 takes the whole leading
digit run when that run has at most four digits; a longer run can never be
followed by `_sp` or `.`, so the position fails. -/
def matchAt (l : List Char) : Option (String × String) :=
  let ds := l.takeWhile Char.isDigit
  if ds.length > 4 then none
  else (matchSpTail (l.drop ds.length)).map (fun g2 => (String.mk ds, g2))

/-- `re.search` position scan for the main version pattern: try successive
start positions left to right. -/
def searchVersionAux : List Char → Option (String × String)
  | [] => none
  | c :: rest =>
    match matchAt (c :: rest) with
    | some r => some r
    | none => searchVersionAux rest

/-- `re.search(r"([0-9]{0,4})(?:_sp\d*)?\.([0-9][0-9.]*)$", d)`:
the two captured groups, or `none` when the pattern does not match. -/
def searchVersion (d : String) : Option (String × String) :=
  searchVersionAux d.toList

/-- `re.search(r"([0-9][0-9.]*)$", d)` position scan: the matched suffix must
be a digit followed by digits and dots to the end. -/
def searchNumAux : List Char → Option String
  | [] => none
  | c :: rest =>
    if c.isDigit && rest.all digitOrDot then some (String.mk (c :: rest))
    else searchNumAux rest

/-- `re.search(r"([0-9][0-9.]*)$", d)`: group 1, or `none`. -/
def searchNum (d : String) : Option String :=
  searchNumAux d.toList

/-!
## Host-state parameters
-/

/-- The filesystem facts the Linux code paths consult: the result lists of
the three `glob.glob` calls, and the `os.path.exists` / `os.path.isdir`
predicates.  Each `glob*` field holds paths matching its pattern. -/
structure FS where
  /-- `glob.glob("/opt/intel*/composer_xe_*")` -/
  globComposerXe : List String
  /-- `glob.glob("/opt/intel*/composerxe-*")` -/
  globComposerxe : List String
  /-- `glob.glob("/opt/intel*/compilers_and_libraries_*")` -/
  globCompilersAndLibraries : List String
  /-- `os.path.exists` -/
  pathExists : String → Bool
  /-- `os.path.isdir` -/
  isdir : String → Bool

/-- The Windows registry facts the source reads.  A subkey field of `none`
models `RegOpenKeyEx` raising (key absent); `productDir path = none` models
`RegError` while opening the key or querying its `ProductDir` value. -/
structure Registry where
  /-- `SCons.Util.can_read_reg` -/
  canReadReg : Bool
  /-- subkeys of `Software\WoW6432Node\Intel\Compilers\Fortran` -/
  legacySubkeys : Option (List String)
  /-- subkeys of `Software\WoW6432Node\Intel\Compilers\1AFortran` -/
  modernSubkeys : Option (List String)
  /-- `ProductDir` value under a given registry path -/
  productDir : String → Option String

/-- What `generate` reads from the caller's construction environment:
membership of the two suffix-list variables, and `env["PLATFORM"]`. -/
structure Env0 where
  hasFortranFileSuffixes : Bool
  hasF90FileSuffixes : Bool
  platformVar : String

/-!
## Python-runtime helpers

`float()` / `int()` acceptance is runtime behaviour, not repository code.
The following models are used only on strings made of digits and dots (the
shape of every version string this development evaluates them on) and are
faithful there; theorems that rely on them carry that domain hypothesis.
-/

/-- Model of Python `float(s)` acceptance for strings of digits and dots:
accepted iff the string has at least one digit and at most one dot.
(Signs, exponents, spaces, underscores and `inf`/`nan` are outside the
domain this development uses.) -/
def pyFloatAccepts (s : String) : Bool :=
  s.toList.all digitOrDot && s.toList.any Char.isDigit &&
    (s.toList.filter (fun c => c == '.')).length ≤ 1

/-- Model of `str(int(float(s)))` for accepted digit-and-dot strings: the
decimal integer part with leading zeros removed (`"0"` when empty).  Exact
whenever `float(s)` does not round across an integer boundary, which holds
for every version string evaluated in this development. -/
def intOfFloatStr (s : String) : String :=
  let ip := (s.toList.takeWhile (fun c => c != '.')).dropWhile (fun c => c == '0')
  if ip.isEmpty then "0" else String.mk ip

/-- Model of Python `int(s)` acceptance for plain digit strings. -/
def pyIntOk (s : String) : Bool :=
  s != "" && s.toList.all Char.isDigit

/-!
## Errors

Abstract kinds of the Python exceptions the embedded code can raise.
-/

inductive PyErr where
  /-- `TypeError` (e.g. `len(None)`, `"s" + None`, `float(None)`) -/
  | typeError
  /-- `ValueError` (e.g. `float("2011.11.344")`) -/
  | valueError
  /-- `AttributeError` (e.g. `None.split`) -/
  | attributeError
  /-- `KeyError` (dict lookup of an unknown ABI alias) -/
  | keyError
  /-- `MissingRegistryError` with its message -/
  | missingRegistry (msg : String)
  /-- `NoRegistryModuleError` -/
  | noRegistryModule
  /-- `MissingDirError` with its message -/
  | missingDir (msg : String)
deriving DecidableEq

deriving instance DecidableEq for Except

/-!
## Catalog (`get_all_compiler_versions` and its helpers)
-/

/-- `get_registry_path(version)` (source lines 129-137): picks the legacy or
`1AFortran` registry root by `int(version.split(".")[0]) < 2023`; a
non-numeric first component makes `int` raise `ValueError`. -/
def get_registry_path (version : String) : Except PyErr String :=
  let first := (version.splitOn ".").headD ""
  if pyIntOk first then
    if first.toNat?.getD 0 < 2023 then
      .ok ("Software\\Wow6432Node\\Intel\\Compilers\\Fortran\\" ++ version)
    else
      .ok ("Software\\Wow6432Node\\Intel\\Compilers\\1AFortran\\" ++ version)
  else .error .valueError

/-- `get_intel_registry_value("ProductDir", version)` as called from
`get_intel_compiler_top` (`abi=None`, `msvs=None`, so the key path is just
`get_registry_path(version)`).  A `None` version makes `version.split`
raise.  The two registry failure shapes (open vs. query) are both embedded
as `MissingRegistryError`, with the open-failure message text. -/
def get_intel_registry_value (reg : Registry) (version : Option String) :
    Except PyErr String :=
  match version with
  | none => .error .attributeError
  | some v =>
    match get_registry_path v with
    | .error e => .error e
    | .ok path =>
      match reg.productDir path with
      | some val => .ok val
      | none => .error (.missingRegistry
          (path ++ " was not found in the registry, for Intel compiler version "
            ++ v ++ ", abi='None'"))

/-- `extract_compiler_versions_from_registry(path)` (lines 140-163): all
enumerable subkeys of the key, keeping only `float`-parseable names; an
unopenable key yields `[]`. -/
def extract_compiler_versions_from_registry (subkeys : Option (List String)) :
    List String :=
  match subkeys with
  | none => []
  | some l => l.filter pyFloatAccepts

/-- One pass of the Linux glob loops (lines 182-192): for each directory
matching the glob, extract `"%s.%s" % (m.group(1), m.group(2))` when the
version pattern matches, in glob order. -/
def extractVersionsFromDirs (dirs : List String) : List String :=
  dirs.filterMap (fun d => (searchVersion d).map (fun p => p.1 ++ "." ++ p.2))

/-- Lexicographic code-point comparison of character lists — the order
Python uses to compare strings. -/
def strLeAux : List Char → List Char → Bool
  | [], _ => true
  | _ :: _, [] => false
  | a :: as, b :: bs =>
    if a.toNat < b.toNat then true
    else if b.toNat < a.toNat then false
    else strLeAux as bs

/-- Python `a <= b` on strings: code-point lexicographic. -/
def strLe (a b : String) : Bool := strLeAux a.toList b.toList

/-- `sorted(versions, reverse=True)`: descending lexicographic string sort
(for a list of strings all sorting algorithms agree, equal elements being
identical). -/
def sortDesc (l : List String) : List String :=
  List.insertionSort (fun a b => strLe b a = true) l

instance : DecidableRel (fun a b : String => strLe b a = true) :=
  fun a b => inferInstanceAs (Decidable (strLe b a = true))

instance : IsTotal String (fun a b : String => strLe b a = true) := by
  constructor
  have key : ∀ u v : List Char, strLeAux u v = true ∨ strLeAux v u = true := by
    intro u
    induction u with
    | nil => intro v; left; rfl
    | cons x xs ih =>
      intro v
      cases v with
      | nil => right; rfl
      | cons y ys =>
        by_cases h1 : x.toNat < y.toNat
        · left; simp [strLeAux, h1]
        · by_cases h2 : y.toNat < x.toNat
          · right; simp [strLeAux, h2]
          · rcases ih ys with h | h
            · left; simp [strLeAux, h1, h2, h]
            · right; simp [strLeAux, h1, h2, h]
  intro a b
  exact key b.toList a.toList

instance : IsTrans String (fun a b : String => strLe b a = true) := by
  constructor
  have key : ∀ u v w : List Char, strLeAux u v = true →
      strLeAux v w = true → strLeAux u w = true := by
    intro u
    induction u with
    | nil => intro v w _ _; rfl
    | cons x xs ih =>
      intro v w hab hbc
      cases v with
      | nil => simp [strLeAux] at hab
      | cons y ys =>
        cases w with
        | nil => simp [strLeAux] at hbc
        | cons z zs =>
          simp only [strLeAux] at hab hbc ⊢
          by_cases hxy : x.toNat < y.toNat <;> by_cases hyx : y.toNat < x.toNat <;>
            by_cases hyz : y.toNat < z.toNat <;> by_cases hzy : z.toNat < y.toNat <;>
              simp [hxy, hyx, hyz, hzy] at hab hbc <;>
                first
                  | omega
                  | rw [if_pos (show x.toNat < z.toNat by omega)]
                  | (rw [if_neg (show ¬ x.toNat < z.toNat by omega),
                      if_neg (show ¬ z.toNat < x.toNat by omega)]
                     exact ih ys zs hab hbc)
  intro a b c h h2
  exact key c.toList b.toList a.toList h2 h

/-- `get_all_compiler_versions()` (lines 166-193).  On Windows the two
registry roots are concatenated and sorted descending; on Linux the two
glob scans are; on any other host the function falls off its end and
returns `None`. -/
def get_all_compiler_versions (plat : Platform) (reg : Registry) (fs : FS) :
    Option (List String) :=
  match plat with
  | .windows _ =>
    some (sortDesc (extract_compiler_versions_from_registry reg.legacySubkeys
      ++ extract_compiler_versions_from_registry reg.modernSubkeys))
  | .linux =>
    some (sortDesc (extractVersionsFromDirs fs.globComposerXe
      ++ extractVersionsFromDirs fs.globCompilersAndLibraries))
  | .other => none


/-!
## Version selection (`generate`, lines 308-318)
-/

/-- The selection step of `generate`: when a version is requested, strip the
dots from the *request* and take the first catalog entry containing that
stripped token as a raw substring, leaving the request unchanged when no
entry matches; when no version is requested, take the first entry. -/
def selectVersion (vlist : List String) (version : Option String) :
    Option String :=
  if vlist.length != 0 then
    if !truthyOpt version then vlist.head?
    else
      let version_stripped := stripDots (version.getD "")
      match vlist.find? (fun v => pyInStr version_stripped v) with
      | some v => some v
      | none => version
  else version

/-!
## Layout resolution (`get_intel_compiler_top`, lines 196-268)
-/

/-- Body of the first `find_in_2011style_dir` loop (lines 214-225): the
directory's extracted version equals the request and `icc` exists under
`bin/ia32` or `bin/intel64`. -/
def match2011XeDir (fs : FS) (version : Option String) (d : String) : Bool :=
  match searchVersion d with
  | some (g1, g2) =>
    pyEqOpt (g1 ++ "." ++ g2) version &&
      (fs.pathExists (d ++ "/bin/ia32/icc") ||
        fs.pathExists (d ++ "/bin/intel64/icc"))
  | none => false

/-- Body of the `composerxe-` fallback loop (lines 227-239): the plain
numeric-suffix pattern equals the request and `icc` exists under
`bin/ia32` or `bin/intel64`. -/
def matchComposerxeDir (fs : FS) (version : Option String) (d : String) : Bool :=
  match searchNum d with
  | some g1 =>
    pyEqOpt g1 version &&
      (fs.pathExists (d ++ "/bin/ia32/icc") ||
        fs.pathExists (d ++ "/bin/intel64/icc"))
  | none => false

/-- `find_in_2011style_dir(version)` (lines 210-240): scan the
`composer_xe_*` glob for a directory matching `match2011XeDir`; fall back
to the `composerxe-*` glob when the first loop's result is falsy. -/
def find_in_2011style_dir (fs : FS) (version : Option String) : Option String :=
  let top1 := fs.globComposerXe.find? (match2011XeDir fs version)
  if truthyOpt top1 then top1
  else
    match fs.globComposerxe.find? (matchComposerxeDir fs version) with
    | some d => some d
    | none => top1

/-- Body of the `compilers_and_libraries_*` loop (lines 247-259):
extracted version equals the request or contains its integer-stripped form,
with `icc` under one of the two ABI subdirectories. -/
def match2017Dir (fs : FS) (v version_stripped : String) (d : String) : Bool :=
  match searchVersion d with
  | some (g1, g2) =>
    let cur_ver := g1 ++ "." ++ g2
    (cur_ver == v || pyInStr version_stripped cur_ver) &&
      (fs.pathExists (d ++ "/linux/bin/ia32/icc") ||
        fs.pathExists (d ++ "/linux/bin/intel64/icc"))
  | none => false

/-- `find_in_2017style_dir(version)` (lines 242-260): before any search the
function computes `version_stripped = str(int(float(version)))`, so an
unparseable version raises there (`TypeError` for `None`, `ValueError`
otherwise); then scan the `compilers_and_libraries_*` glob for a directory
whose extracted version equals the request or contains the stripped form,
with `icc` under `linux/bin/ia32` or `linux/bin/intel64`, returning the
directory with a trailing `linux` segment. -/
def find_in_2017style_dir (fs : FS) (version : Option String) :
    Except PyErr (Option String) :=
  match version with
  | none => .error .typeError
  | some v =>
    if !pyFloatAccepts v then .error .valueError
    else
      let version_stripped := intOfFloatStr v
      .ok (match fs.globCompilersAndLibraries.find?
          (match2017Dir fs v version_stripped) with
        | some d => some (d ++ "/linux")
        | none => none)

/-- `get_intel_compiler_top(version, abi)` (lines 196-268).  Windows reads
`ProductDir` from the registry (after a registry-capability check) and
returns it unchecked; Linux tries the 2011-style then the 2017-style
search and raises `MissingDirError` when both produce a falsy result —
interpolating the (then necessarily falsy) `top` into the message; any
other host returns the initial `top = None`. -/
def get_intel_compiler_top (plat : Platform) (fs : FS) (reg : Registry)
    (version : Option String) (abi : String) : Except PyErr (Option String) :=
  match plat with
  | .windows _ =>
    if !reg.canReadReg then .error .noRegistryModule
    else (get_intel_registry_value reg version).map some
  | .linux =>
    let topA := find_in_2011style_dir fs version
    let t2 : Except PyErr (Option String) :=
      if truthyOpt topA then .ok topA else find_in_2017style_dir fs version
    match t2 with
    | .error e => .error e
    | .ok top =>
      if !truthyOpt top then
        .error (.missingDir ("Can't find version " ++ pyStrOfOpt version
          ++ " Intel compiler in " ++ pyStrOfOpt top
          ++ " (abi='" ++ abi ++ "')"))
      else .ok top
  | .other => .ok none

/-!
## Environment composition (`generate`, lines 271-430)
-/

/-- A construction-variable value assigned by `generate`. -/
inductive PyVal where
  | str (s : String)
  | strList (l : List String)
  /-- `SCons.Util.CLVar(s)` -/
  | clvar (s : String)
deriving DecidableEq

/-- One effect `generate` performs, in program order.  Each constructor
records which SCons API the source invokes; in particular a path mutation
records whether the call was `env.AppendENVPath` or `env.PrependENVPath`
(the source only ever performs the former; the latter exists so that the
direction of a mutation is part of the trace). -/
inductive Effect where
  /-- `SCons.Tool.msvc.generate(env)` -/
  | msvcGenerate
  /-- `SCons.Tool.SourceFileScanner.add_scanner(ext, fscan)` -/
  | addScanner (ext : String)
  /-- `env[name] = value` -/
  | setVar (name : String) (value : PyVal)
  /-- `env[name].append(item)` -/
  | appendVarList (name : String) (item : String)
  /-- `env.AppendENVPath(var, path)` -/
  | appendEnvPath (var : String) (path : String)
  /-- `env.PrependENVPath(var, path)` — never emitted by this tool -/
  | prependEnvPath (var : String) (path : String)
  /-- `print(msg)` of a string -/
  | printMsg (msg : String)
  /-- `print(vlist)` of the catalog value -/
  | printVersions (v : Option (List String))
  /-- `os.system(cmd)` -/
  | runSystem (cmd : String)
  /-- `add_all_to_env(env)` from `FortranCommon` -/
  | addAllToEnv
  /-- `env[var] = env[var].replace("-o $TARGET", "-object:$TARGET")` -/
  | comRewrite (var : String)
deriving DecidableEq

def Effect.isAppendEnvPath : Effect → Bool
  | .appendEnvPath _ _ => true
  | _ => false

def Effect.isPrependEnvPath : Effect → Bool
  | .prependEnvPath _ _ => true
  | _ => false

/-- Whether an effect mutates the caller's environment (a construction
variable or an ENV path variable), directly or through a helper; prints,
scanner registration and running the compiler do not. -/
def Effect.mutatesEnv : Effect → Bool
  | .setVar _ _ => true
  | .appendVarList _ _ => true
  | .appendEnvPath _ _ => true
  | .prependEnvPath _ _ => true
  | .comRewrite _ => true
  | .addAllToEnv => true
  | .msvcGenerate => true
  | _ => false

/-- The `archdir` dict of `generate` (lines 337-346); an alias outside the
dict raises `KeyError`. -/
def archdirOf (abi : String) : Option String :=
  if abi == "x86_64" || abi == "amd64" || abi == "em64t" then some "intel64"
  else if abi == "x86" || abi == "i386" || abi == "ia32" then some "ia32"
  else none

/-- Layout-shape detection (lines 347-354): the modern three-tier layout
when `topdir/bin/<archdir>` exists, else the flat legacy layout; returns
`(bindir, libdir, incdir)`. -/
def layoutDirs (plat : Platform) (fs : FS) (topdir archdir : String) :
    String × String × String :=
  if fs.pathExists (pjoin plat (pjoin plat topdir "bin") archdir) then
    (pjoin plat "bin" archdir,
      pjoin plat (pjoin plat "compiler" "lib") archdir,
      pjoin plat "compiler" "include")
  else ("bin", "lib", "include")

/-- Math-library probe (lines 356-362): the three `mkl` path variables are
assigned under the single `os.path.exists(topdir/mkl/bin/<archdir>)` guard,
so they are all present or all absent; returns `(binmkl, libmkl, incmkl)`. -/
def mklDirs (plat : Platform) (fs : FS) (topdir archdir : String) :
    Option (String × String × String) :=
  if fs.pathExists (pjoin plat (pjoin plat (pjoin plat topdir "mkl") "bin") archdir) then
    some (pjoin plat (pjoin plat "mkl" "bin") archdir,
      pjoin plat (pjoin plat "mkl" "lib") archdir,
      pjoin plat "mkl" "include")
  else none

/-- The `if topdir:` block of `generate` (lines 336-402): archdir lookup,
layout-shape detection, math-library probe, redistributable directory,
verbose reporting, and the ordered environment mutations. -/
def configBlock (plat : Platform) (fs : FS) (topdir abi : String)
    (versel : Option String) (verbose : Bool) : Except PyErr (List Effect) :=
  match archdirOf abi with
  | none => .error .keyError
  | some archdir =>
    let (bindir, libdir, incdir) := layoutDirs plat fs topdir archdir
    let mkl := mklDirs plat fs topdir archdir
    let redist :=
      if plat.isWindows then
        let r0 := pjoin plat (pjoin plat topdir "redist") "intel64"
        let r1 := if fs.isdir r0 then r0 else r0 ++ "_win"
        pjoin plat r1 "compiler"
      else
        let r0 := pjoin plat (pjoin plat topdir "lib") "intel64"
        if fs.isdir r0 then r0 else r0 ++ "_lin"
    let fxRedist := [Effect.setVar "INTEL_FORTRAN_REDIST_DIR" (.str redist)]
    let fxVerbose :=
      if verbose then
        [Effect.printMsg ("Intel Fortran compiler: using version "
          ++ pyRepr versel ++ ", abi " ++ abi ++ ", in '"
          ++ topdir ++ "/" ++ bindir ++ "'")] ++
        (if plat = Platform.linux then
          [Effect.runSystem (topdir ++ "/" ++ bindir ++ "/ifort --version")]
        else [])
      else []
    let fxTop := [Effect.setVar "INTEL_FORTRAN_COMPILER_TOP" (.str topdir)]
    let fxBase := [Effect.appendEnvPath "INCLUDE" (pjoin plat topdir incdir),
      Effect.appendEnvPath "LIB" (pjoin plat topdir libdir),
      Effect.appendEnvPath "PATH" (pjoin plat topdir bindir)]
    let fxMkl :=
      match mkl with
      | some (binmkl, libmkl, incmkl) =>
        [Effect.appendEnvPath "PATH" (pjoin plat topdir binmkl),
          Effect.appendEnvPath "INCLUDE" (pjoin plat topdir incmkl),
          Effect.appendEnvPath "LIB" (pjoin plat topdir libmkl)]
      | none => []
    let fxPlat :=
      if plat.isWindows then
        [Effect.appendEnvPath "PATH"
          (pjoin plat topdir (pjoin plat (pjoin plat "redist" archdir) "compiler"))]
      else if plat = Platform.linux then
        [Effect.appendEnvPath "LD_LIBRARY_PATH" (pjoin plat topdir libdir)] ++
        (match mkl with
          | some (_, libmkl, _) =>
            [Effect.appendEnvPath "LD_LIBRARY_PATH" (pjoin plat topdir libmkl)]
          | none => [])
      else []
    .ok (fxRedist ++ fxVerbose ++ fxTop ++ fxBase ++ fxMkl ++ fxPlat)

/-- The unconditional tail of `generate` (lines 404-430): `add_all_to_env`,
the dialect variables, and the module-directory variables. -/
def tailEffects (env : Env0) : List Effect :=
  [Effect.addAllToEnv] ++
  (["F77", "F90", "FORTRAN", "F95"].flatMap (fun d =>
    [Effect.setVar d (.str "ifort"),
      Effect.setVar ("SH" ++ d) (.str ("$" ++ d))] ++
    (if env.platformVar == "posix" then
      [Effect.setVar ("SH" ++ d ++ "FLAGS") (.clvar ("$" ++ d ++ "FLAGS -fPIC"))]
    else []))) ++
  (if env.platformVar == "win32" then
    (["F77", "F90", "FORTRAN", "F95"].flatMap (fun d =>
      [Effect.comRewrite (d ++ "COM"), Effect.comRewrite (d ++ "PPCOM"),
        Effect.comRewrite ("SH" ++ d ++ "COM"),
        Effect.comRewrite ("SH" ++ d ++ "PPCOM")])) ++
    [Effect.setVar "FORTRANMODDIRPREFIX" (.str "/module:")]
  else [Effect.setVar "FORTRANMODDIRPREFIX" (.str "-module ")]) ++
  [Effect.setVar "FORTRANMODDIR" (.str "$\x7bTARGET.dir\x7d"),
    Effect.setVar "F90PATH" (.str "$\x7bTARGET.dir\x7d")]

/-- `generate(env, version, abi, topdir, verbose)` (lines 271-430), embedded
as the ordered list of effects performed on the caller's environment plus
an optional uncaught exception (`none` = the function returned).  Effects
performed before an exception is raised are kept in the trace. -/
def generate (plat : Platform) (fs : FS) (reg : Registry) (env : Env0)
    (version abi topdir : Option String) (verbose : Bool) :
    List Effect × Option PyErr :=
  let fx0 :=
    (if plat.isWindows then [Effect.msvcGenerate] else []) ++
    [Effect.addScanner ".i", Effect.addScanner ".i90"] ++
    (if env.hasFortranFileSuffixes then
      [Effect.appendVarList "FORTRANFILESUFFIXES" ".i"]
    else [Effect.setVar "FORTRANFILESUFFIXES" (.strList [".i"])]) ++
    (if env.hasF90FileSuffixes then
      [Effect.appendVarList "F90FILESUFFIXES" ".i90"]
    else [Effect.setVar "F90FILESUFFIXES" (.strList [".i90"])])
  match get_all_compiler_versions plat reg fs with
  | none =>
    -- vlist is None: `len(vlist)` raises TypeError, at line 301 when the
    -- early-return condition evaluates it, otherwise at line 310 (after the
    -- verbose catalog print).
    if !truthyOpt topdir then (fx0, some PyErr.typeError)
    else
      (fx0 ++ (if verbose then
        [Effect.printMsg "Found installed Intel Fortran versions:",
          Effect.printVersions none] else []), some PyErr.typeError)
  | some vlist =>
    if !truthyOpt topdir && vlist.length == 0 then
      (fx0 ++ [Effect.printMsg
        "Intel Fortran compiler not configured. Could not find an installation."],
        none)
    else
      let fxv :=
        if verbose then
          [Effect.printMsg "Found installed Intel Fortran versions:",
            Effect.printVersions (some vlist)]
        else []
      let versel := selectVersion vlist version
      -- line 320: `"Selected ..." + version` raises TypeError on None
      if verbose && versel.isNone then (fx0 ++ fxv, some PyErr.typeError)
      else
        let fxs :=
          if verbose then
            [Effect.printMsg ("Selected Intel Fortran compiler version: "
              ++ versel.getD "")]
          else []
        let abi2 :=
          if truthyOpt abi then abi
          else some (if plat.isWin64 || plat = Platform.linux then "x86_64" else "ia32")
        let topRes : Except PyErr (Option String) :=
          if !truthyOpt topdir then
            get_intel_compiler_top plat fs reg versel (abi2.getD "")
          else if !fs.pathExists (topdir.getD "") then
            get_intel_compiler_top plat fs reg versel (abi2.getD "")
          else .ok topdir
        match topRes with
        | .error e => (fx0 ++ fxv ++ fxs, some e)
        | .ok top2 =>
          -- line 334: `"Found ..." + topdir` raises TypeError on None
          if verbose && top2.isNone then (fx0 ++ fxv ++ fxs, some PyErr.typeError)
          else
            let fxf :=
              if verbose then
                [Effect.printMsg ("Found Intel Fortran compiler at: "
                  ++ top2.getD "")]
              else []
            let pre := fx0 ++ fxv ++ fxs ++ fxf
            if truthyOpt top2 then
              match configBlock plat fs (top2.getD "") (abi2.getD "") versel verbose with
              | .error e => (pre, some e)
              | .ok fxc => (pre ++ fxc ++ tailEffects env, none)
            else (pre ++ tailEffects env, none)

/-!
## Concrete host snapshots used by the theorems
-/

/-- A host with no Intel installation at all. -/
def fsEmpty : FS :=
  { globComposerXe := [], globComposerxe := [], globCompilersAndLibraries := [],
    pathExists := fun _ => false, isdir := fun _ => false }

/-- A registry with no Intel entries and no registry capability. -/
def regEmpty : Registry :=
  { canReadReg := false, legacySubkeys := none, modernSubkeys := none,
    productDir := fun _ => none }

/-- A fresh POSIX construction environment without the suffix variables. -/
def envFresh : Env0 :=
  { hasFortranFileSuffixes := false, hasF90FileSuffixes := false,
    platformVar := "posix" }

/-- A host where the single path `/opt/nobin` exists and nothing else does:
in particular no compiler binary exists anywhere. -/
def fsTopOnly : FS :=
  { globComposerXe := [], globComposerxe := [], globCompilersAndLibraries := [],
    pathExists := fun p => p == "/opt/nobin", isdir := fun _ => false }

/-- A host with a modern-layout installation at `/opt/good`
(`/opt/good/bin/intel64` exists). -/
def fsGood : FS :=
  { globComposerXe := [], globComposerxe := [], globCompilersAndLibraries := [],
    pathExists := fun p => p == "/opt/good" || p == "/opt/good/bin/intel64",
    isdir := fun _ => false }

/-- Two distinct directories matched by the same glob pattern
`/opt/intel*/composer_xe_*`, both extracting to the version `2011.11.344`. -/
def fsDup : FS :=
  { globComposerXe := ["/opt/intel/composer_xe_2011_sp1.11.344",
      "/opt/intela/composer_xe_2011.11.344"],
    globComposerxe := [], globCompilersAndLibraries := [],
    pathExists := fun _ => false, isdir := fun _ => false }

/-- A `composer_xe_2011_sp1.11.344` directory with no compiler binary. -/
def fsXeNoBin : FS :=
  { globComposerXe := ["/opt/intel/composer_xe_2011_sp1.11.344"],
    globComposerxe := [], globCompilersAndLibraries := [],
    pathExists := fun _ => false, isdir := fun _ => false }

/-- A `composer_xe_2011_sp1.11.344` directory holding an `intel64` `icc`. -/
def fsXeBin : FS :=
  { globComposerXe := ["/opt/intel/composer_xe_2011_sp1.11.344"],
    globComposerxe := [], globCompilersAndLibraries := [],
    pathExists :=
      fun p => p == "/opt/intel/composer_xe_2011_sp1.11.344/bin/intel64/icc",
    isdir := fun _ => false }

/-!
## C1 — version selection and request normalization
-/

/-- **C1, counterexample.** The selector strips separators from the request
only, never from the catalog entries.  With catalog `["19.0"]` the entry's
stripped form is exactly the token `"190"`, so the claim says requesting
`"190"` selects `"19.0"`; the code instead finds no match (the raw entry
`"19.0"` does not contain `"190"`) and passes the request through, while
requesting `"19.0"` yields `"19.0"`, so the two "equivalent" requests do
not produce the same result either. -/
theorem c1_counterexample :
    selectVersion ["19.0"] (some "190") = some "190" ∧
    selectVersion ["19.0"] (some "19.0") = some "19.0" ∧
    stripDots "19.0" = "190" ∧
    pyInStr (stripDots "190") "19.0" = false := by decide

/-- **C1, amended.** Selection strips the dots from the requested string
only and returns the first catalog entry containing that stripped token as
a raw substring (entries are not normalized); two requests with the same
stripped form therefore select the same entry whenever some entry
matches. -/
theorem c1_select_strips_request_only (vlist : List String) (req1 req2 : String)
    (h1 : req1 ≠ "") (h2 : req2 ≠ "")
    (hs : stripDots req1 = stripDots req2) (v : String)
    (hv : vlist.find? (fun u => pyInStr (stripDots req1) u) = some v) :
    selectVersion vlist (some req1) = some v ∧
    selectVersion vlist (some req2) = some v ∧
    v ∈ vlist ∧ pyInStr (stripDots req1) v = true := by
  have hmem := List.mem_of_find?_eq_some hv
  have hp := List.find?_some hv
  have hne : vlist ≠ [] := by rintro rfl; simp at hv
  have hlen : (vlist.length != 0) = true := by
    cases vlist with
    | nil => exact absurd rfl hne
    | cons a as => simp
  have ht1 : truthyOpt (some req1) = true := by
    show (req1 != "") = true
    exact bne_iff_ne.mpr h1
  have ht2 : truthyOpt (some req2) = true := by
    show (req2 != "") = true
    exact bne_iff_ne.mpr h2
  refine ⟨?_, ?_, hmem, hp⟩
  · simp only [selectVersion, hlen, ht1, Option.getD, if_true, Bool.not_true,
      Bool.false_eq_true, if_false]
    rw [hv]
  · simp only [selectVersion, hlen, ht2, Option.getD, if_true, Bool.not_true,
      Bool.false_eq_true, if_false]
    rw [← hs, hv]

/-- **C1, witness** (the spec's own example): requesting `"19"` against
`["2021.3", "19.1", "19.0"]` selects `"19.1"`, and so does the
equivalently-stripped request `"1.9"`. -/
theorem c1_witness :
    selectVersion ["2021.3", "19.1", "19.0"] (some "19") = some "19.1" ∧
    selectVersion ["2021.3", "19.1", "19.0"] (some "1.9") = some "19.1" ∧
    "19.1" ∈ ["2021.3", "19.1", "19.0"] ∧
    pyInStr (stripDots "19") "19.1" = true :=
  c1_select_strips_request_only ["2021.3", "19.1", "19.0"] "19" "1.9"
    (by decide) (by decide) (by decide) "19.1" (by decide)

/-!
## C5 — content of the hard-failure error
-/

/-- **C5** (code bug): with no installation present, requesting version
`"99.9"` on Linux raises `MissingDirError` whose message interpolates the
local `top` — which is necessarily `None` at the raise site — where the
format string `"Can't find version %s Intel compiler in %s (abi='%s')"`
plainly intends a location, so the error carries the requested version and
ABI but not the searched path(s). -/
theorem c5_error_message_has_no_searched_path :
    get_intel_compiler_top Platform.linux fsEmpty regEmpty (some "99.9") "x86_64" =
      .error (.missingDir
        "Can't find version 99.9 Intel compiler in None (abi='x86_64')") := by
  rfl

/-!
## C9 — hosts that are neither Windows nor Linux
-/

/-- **C9.** On a host that is neither Windows nor Linux,
`get_all_compiler_versions` falls off its end and returns `None`, and every
call to `generate` then raises `TypeError` at `len(vlist)` instead of
declining cleanly. -/
theorem c9_other_platform_type_error :
    ∀ (fs : FS) (reg : Registry) (env : Env0)
      (version abi topdir : Option String) (verbose : Bool),
      get_all_compiler_versions Platform.other reg fs = none ∧
      (generate Platform.other fs reg env version abi topdir verbose).2 =
        some PyErr.typeError := by
  intro fs reg env version abi topdir verbose
  refine ⟨rfl, ?_⟩
  unfold generate
  cases h : (!truthyOpt topdir) <;> simp [get_all_compiler_versions, h]

/-!
## C10 — unparseable versions leak `ValueError` out of resolution
-/

/-- **C10.** On Linux, whenever the 2011-style search finds nothing and the
requested version is a digit-and-dot string that Python's `float()` cannot
parse (more than one dot), `find_in_2017style_dir` raises `ValueError` from
`str(int(float(version)))` before searching, and `get_intel_compiler_top`
propagates it instead of raising the typed `MissingDirError`. -/
theorem c10_unparseable_version_value_error (fs : FS) (reg : Registry)
    (version abi : String)
    (hchars : version.toList.all digitOrDot = true)
    (hfloat : pyFloatAccepts version = false)
    (h2011 : find_in_2011style_dir fs (some version) = none) :
    get_intel_compiler_top Platform.linux fs reg (some version) abi =
      .error PyErr.valueError := by
  unfold get_intel_compiler_top
  simp [h2011, truthyOpt, find_in_2017style_dir, hfloat]

/-- **C10, witness.** The Linux catalog itself produces the three-component
version `"2011.11.344"` from a `composer_xe_2011_sp1.11.344` directory, and
resolving that very version (when the directory lacks a compiler binary, so
the 2011-style search declines) dies with `ValueError`. -/
theorem c10_witness :
    get_all_compiler_versions Platform.linux regEmpty fsXeNoBin =
      some ["2011.11.344"] ∧
    get_intel_compiler_top Platform.linux fsXeNoBin regEmpty
      (some "2011.11.344") "x86_64" = .error PyErr.valueError :=
  ⟨by decide,
    c10_unparseable_version_value_error fsXeNoBin regEmpty "2011.11.344" "x86_64"
      (by decide) (by decide) (by decide)⟩

/-!
## C3 — when a top directory is accepted
-/

/-- **C3, counterexample.** An explicit caller-supplied `topdir` is accepted
by `generate` after a bare `os.path.exists(topdir)` check: on a host where
`/opt/nobin` exists but contains no file at all (in particular no compiler
binary under the resolved binary subdirectory `bin`), resolution succeeds
and the composer emits path mutations pointing into the empty directory. -/
theorem c3_counterexample :
    (generate Platform.linux fsTopOnly regEmpty envFresh
      (some "12.0") none (some "/opt/nobin") false).2 = none ∧
    Effect.appendEnvPath "PATH" "/opt/nobin/bin" ∈
      (generate Platform.linux fsTopOnly regEmpty envFresh
        (some "12.0") none (some "/opt/nobin") false).1 ∧
    fsTopOnly.pathExists "/opt/nobin/bin/icc" = false ∧
    fsTopOnly.pathExists "/opt/nobin/bin/ifort" = false ∧
    fsTopOnly.pathExists "/opt/nobin/bin/intel64/icc" = false ∧
    fsTopOnly.pathExists "/opt/nobin/bin/ia32/icc" = false := by decide

/-- **C3, amended.** Only the Linux filesystem-search strategies check for a
compiler binary before accepting a directory, and they check for `icc`
under *either* ABI subdirectory (`ia32` or `intel64`), not specifically the
requested ABI; an explicit `topdir` is accepted on mere existence and a
registry-derived one without any check. -/
theorem c3_search_strategies_require_binary :
    (∀ (fs : FS) (version : Option String) (d : String),
      find_in_2011style_dir fs version = some d →
      fs.pathExists (d ++ "/bin/ia32/icc") = true ∨
      fs.pathExists (d ++ "/bin/intel64/icc") = true) ∧
    (∀ (fs : FS) (version : Option String) (t : String),
      find_in_2017style_dir fs version = .ok (some t) →
      ∃ d, t = d ++ "/linux" ∧
        (fs.pathExists (d ++ "/linux/bin/ia32/icc") = true ∨
         fs.pathExists (d ++ "/linux/bin/intel64/icc") = true)) := by
  constructor
  · intro fs version d h
    have hbin : ∀ e : String, match2011XeDir fs version e = true →
        searchVersion e ≠ none ∧
          (fs.pathExists (e ++ "/bin/ia32/icc") = true ∨
            fs.pathExists (e ++ "/bin/intel64/icc") = true) := by
      intro e hp
      unfold match2011XeDir at hp
      cases hsv : searchVersion e with
      | none => rw [hsv] at hp; exact absurd hp (by simp)
      | some p =>
        rw [hsv] at hp
        obtain ⟨g1, g2⟩ := p
        refine ⟨by simp [hsv], ?_⟩
        exact (Bool.or_eq_true _ _).mp ((Bool.and_eq_true _ _).mp hp).2
    have hbin2 : ∀ e : String, matchComposerxeDir fs version e = true →
        fs.pathExists (e ++ "/bin/ia32/icc") = true ∨
          fs.pathExists (e ++ "/bin/intel64/icc") = true := by
      intro e hp
      unfold matchComposerxeDir at hp
      cases hsn : searchNum e with
      | none => rw [hsn] at hp; exact absurd hp (by simp)
      | some g1 =>
        rw [hsn] at hp
        exact (Bool.or_eq_true _ _).mp ((Bool.and_eq_true _ _).mp hp).2
    cases h1 : fs.globComposerXe.find? (match2011XeDir fs version) with
    | some d1 =>
      obtain ⟨hne1, hq1⟩ := hbin d1 (List.find?_some h1)
      have hd1 : (d1 != "") = true := by
        refine bne_iff_ne.mpr ?_
        intro he
        rw [he] at hne1
        exact hne1 rfl
      simp only [find_in_2011style_dir, h1, truthyOpt, hd1, if_true] at h
      obtain rfl := Option.some.inj h
      exact hq1
    | none =>
      cases h2 : fs.globComposerxe.find? (matchComposerxeDir fs version) with
      | some d2 =>
        simp only [find_in_2011style_dir, h1, h2, truthyOpt,
          Bool.false_eq_true, if_false] at h
        obtain rfl := Option.some.inj h
        exact hbin2 d2 (List.find?_some h2)
      | none =>
        simp only [find_in_2011style_dir, h1, h2, truthyOpt] at h
        simp at h
  · intro fs version t h
    cases version with
    | none => simp [find_in_2017style_dir] at h
    | some v =>
      cases hf : pyFloatAccepts v with
      | false => simp [find_in_2017style_dir, hf] at h
      | true =>
        cases h3 : fs.globCompilersAndLibraries.find?
            (match2017Dir fs v (intOfFloatStr v)) with
        | some d =>
          simp only [find_in_2017style_dir, hf, h3, Bool.not_true,
            Bool.false_eq_true, if_false] at h
          have ht : t = d ++ "/linux" :=
            (Option.some.inj (Except.ok.inj h)).symm
          refine ⟨d, ht, ?_⟩
          have hp := List.find?_some h3
          unfold match2017Dir at hp
          cases hsv : searchVersion d with
          | none => rw [hsv] at hp; exact absurd hp (by simp)
          | some p =>
            rw [hsv] at hp
            obtain ⟨g1, g2⟩ := p
            exact (Bool.or_eq_true _ _).mp ((Bool.and_eq_true _ _).mp hp).2
        | none =>
          simp only [find_in_2017style_dir, hf, h3, Bool.not_true,
            Bool.false_eq_true, if_false] at h
          simp at h

/-- **C3, witness.** A 2011-style directory accepted by the search does hold
a compiler binary under one of the two ABI subdirectories. -/
theorem c3_witness :
    fsXeBin.pathExists
      ("/opt/intel/composer_xe_2011_sp1.11.344" ++ "/bin/ia32/icc") = true ∨
    fsXeBin.pathExists
      ("/opt/intel/composer_xe_2011_sp1.11.344" ++ "/bin/intel64/icc") = true :=
  c3_search_strategies_require_binary.1 fsXeBin (some "2011.11.344")
    "/opt/intel/composer_xe_2011_sp1.11.344" (by decide)

/-!
## C2 and C6 — behaviour on an empty catalog
-/

/-- With an empty catalog and a falsy `topdir`, `generate` runs its prologue
(the `msvc.generate` call on Windows, the scanner registrations and the
suffix-variable updates), prints the not-configured diagnostic, and
returns normally with no further effect. -/
theorem generate_decline_eq (plat : Platform) (fs : FS) (reg : Registry)
    (env : Env0) (version topdir : Option String) (verbose : Bool)
    (hcat : get_all_compiler_versions plat reg fs = some [])
    (ht : truthyOpt topdir = false) :
    generate plat fs reg env version none topdir verbose =
      ((if plat.isWindows then [Effect.msvcGenerate] else []) ++
        [Effect.addScanner ".i", Effect.addScanner ".i90"] ++
        (if env.hasFortranFileSuffixes then
          [Effect.appendVarList "FORTRANFILESUFFIXES" ".i"]
        else [Effect.setVar "FORTRANFILESUFFIXES" (PyVal.strList [".i"])]) ++
        (if env.hasF90FileSuffixes then
          [Effect.appendVarList "F90FILESUFFIXES" ".i90"]
        else [Effect.setVar "F90FILESUFFIXES" (PyVal.strList [".i90"])]) ++
        [Effect.printMsg
          "Intel Fortran compiler not configured. Could not find an installation."],
        none) := by
  unfold generate
  rw [hcat]
  simp [ht]

/-- **C2, counterexample.** With an empty catalog, no requested version and
no explicit top directory, `generate` prints the diagnostic and returns —
but it has already set the construction variables `FORTRANFILESUFFIXES`
and `F90FILESUFFIXES` on a fresh environment, so the caller's environment
is mutated on the decline path. -/
theorem c2_counterexample :
    (generate Platform.linux fsEmpty regEmpty envFresh none none none false).2
      = none ∧
    Effect.printMsg
        "Intel Fortran compiler not configured. Could not find an installation."
      ∈ (generate Platform.linux fsEmpty regEmpty envFresh none none none false).1 ∧
    Effect.setVar "FORTRANFILESUFFIXES" (PyVal.strList [".i"])
      ∈ (generate Platform.linux fsEmpty regEmpty envFresh none none none false).1 ∧
    Effect.setVar "F90FILESUFFIXES" (PyVal.strList [".i90"])
      ∈ (generate Platform.linux fsEmpty regEmpty envFresh none none none false).1 ∧
    (Effect.setVar "FORTRANFILESUFFIXES" (PyVal.strList [".i"])).mutatesEnv
      = true := by decide

/-- **C2, amended.** On the decline path (empty catalog, falsy requested
version and top directory, on any platform whose catalog returns a list)
`generate` logs the diagnostic and returns without raising, and the only
environment mutations it has performed are the suffix-variable updates
`FORTRANFILESUFFIXES` / `F90FILESUFFIXES` from its prologue — plus, on
Windows only, the prior `SCons.Tool.msvc.generate(env)` call; no path
variable or compiler variable is touched. -/
theorem c2_decline_only_mutates_suffix_vars (plat : Platform) (fs : FS)
    (reg : Registry) (env : Env0) (version topdir : Option String)
    (verbose : Bool)
    (hcat : get_all_compiler_versions plat reg fs = some [])
    (hv : truthyOpt version = false) (ht : truthyOpt topdir = false) :
    (generate plat fs reg env version none topdir verbose).2 = none ∧
    Effect.printMsg
        "Intel Fortran compiler not configured. Could not find an installation."
      ∈ (generate plat fs reg env version none topdir verbose).1 ∧
    ∀ e ∈ (generate plat fs reg env version none topdir verbose).1,
      e.mutatesEnv = true →
        e = Effect.setVar "FORTRANFILESUFFIXES" (PyVal.strList [".i"]) ∨
        e = Effect.appendVarList "FORTRANFILESUFFIXES" ".i" ∨
        e = Effect.setVar "F90FILESUFFIXES" (PyVal.strList [".i90"]) ∨
        e = Effect.appendVarList "F90FILESUFFIXES" ".i90" ∨
        (e = Effect.msvcGenerate ∧ plat.isWindows = true) := by
  rw [generate_decline_eq plat fs reg env version topdir verbose hcat ht]
  cases hw : plat.isWindows <;>
    cases h1 : env.hasFortranFileSuffixes <;>
      cases h2 : env.hasF90FileSuffixes <;> simp [hw, h1, h2] <;> decide

/-- **C2, amended, witness.** -/
theorem c2_witness :
    (generate Platform.linux fsEmpty regEmpty envFresh none none none false).2
      = none ∧
    Effect.printMsg
        "Intel Fortran compiler not configured. Could not find an installation."
      ∈ (generate Platform.linux fsEmpty regEmpty envFresh none none none false).1 ∧
    ∀ e ∈ (generate Platform.linux fsEmpty regEmpty envFresh none none none false).1,
      e.mutatesEnv = true →
        e = Effect.setVar "FORTRANFILESUFFIXES" (PyVal.strList [".i"]) ∨
        e = Effect.appendVarList "FORTRANFILESUFFIXES" ".i" ∨
        e = Effect.setVar "F90FILESUFFIXES" (PyVal.strList [".i90"]) ∨
        e = Effect.appendVarList "F90FILESUFFIXES" ".i90" ∨
        (e = Effect.msvcGenerate ∧ Platform.linux.isWindows = true) :=
  c2_decline_only_mutates_suffix_vars Platform.linux fsEmpty regEmpty envFresh
    none none false (by decide) (by decide) (by decide)

/-- **C6.** With no requested version, selection returns the catalog's first
entry (and `none` on an empty catalog); and on an empty catalog with no
explicit top directory, `generate` declines: it prints the diagnostic,
returns without raising, and emits no path mutation at all. -/
theorem c6_default_selection_and_empty_catalog :
    (∀ vlist : List String, selectVersion vlist none = vlist.head?) ∧
    (∀ (fs : FS) (reg : Registry) (env : Env0) (verbose : Bool),
      get_all_compiler_versions Platform.linux reg fs = some [] →
      (generate Platform.linux fs reg env none none none verbose).2 = none ∧
      Effect.printMsg
          "Intel Fortran compiler not configured. Could not find an installation."
        ∈ (generate Platform.linux fs reg env none none none verbose).1 ∧
      ∀ e ∈ (generate Platform.linux fs reg env none none none verbose).1,
        e.isAppendEnvPath = false ∧ e.isPrependEnvPath = false) := by
  constructor
  · intro vlist
    cases vlist with
    | nil => rfl
    | cons a as => rfl
  · intro fs reg env verbose hcat
    rw [generate_decline_eq Platform.linux fs reg env none none verbose hcat rfl]
    cases h1 : env.hasFortranFileSuffixes <;>
      cases h2 : env.hasF90FileSuffixes <;>
        simp [Platform.isWindows, h1, h2] <;> decide

/-- **C6, witness.** -/
theorem c6_witness :
    selectVersion ["19.0"] none = some "19.0" ∧
    ((generate Platform.linux fsEmpty regEmpty envFresh none none none false).2
        = none ∧
      Effect.printMsg
          "Intel Fortran compiler not configured. Could not find an installation."
        ∈ (generate Platform.linux fsEmpty regEmpty envFresh none none none false).1 ∧
      ∀ e ∈ (generate Platform.linux fsEmpty regEmpty envFresh none none none false).1,
        e.isAppendEnvPath = false ∧ e.isPrependEnvPath = false) :=
  ⟨c6_default_selection_and_empty_catalog.1 ["19.0"],
    c6_default_selection_and_empty_catalog.2 fsEmpty regEmpty envFresh false
      (by decide)⟩

/-!
## C4 — the direction of the base mutations
-/

/-- A block sandwiched between other blocks is an infix of the
concatenation. -/
theorem appendMiddleInfix {α : Type} (a b c base e f : List α) :
    List.IsInfix base (a ++ b ++ c ++ base ++ e ++ f) :=
  ⟨a ++ b ++ c, e ++ f, by simp⟩

/-- **C4, counterexample.** For a resolved layout the three base mutations
exist in the trace only as `AppendENVPath` calls — append-mutations — and
no `PrependENVPath` call occurs anywhere in the run, so they are not
emitted as prepend-mutations. -/
theorem c4_counterexample :
    (generate Platform.linux fsGood regEmpty envFresh
      (some "17.0") none (some "/opt/good") false).2 = none ∧
    Effect.appendEnvPath "INCLUDE" "/opt/good/compiler/include" ∈
      (generate Platform.linux fsGood regEmpty envFresh
        (some "17.0") none (some "/opt/good") false).1 ∧
    Effect.appendEnvPath "LIB" "/opt/good/compiler/lib/intel64" ∈
      (generate Platform.linux fsGood regEmpty envFresh
        (some "17.0") none (some "/opt/good") false).1 ∧
    Effect.appendEnvPath "PATH" "/opt/good/bin/intel64" ∈
      (generate Platform.linux fsGood regEmpty envFresh
        (some "17.0") none (some "/opt/good") false).1 ∧
    (∀ e ∈ (generate Platform.linux fsGood regEmpty envFresh
        (some "17.0") none (some "/opt/good") false).1,
      e.isPrependEnvPath = false) := by decide

/-- **C4, amended.** Whenever the composer block runs, it emits the three
base mutations consecutively and in order — `includeDir` to `INCLUDE`,
`libDir` to `LIB`, `binDir` to `PATH`, each joined to the top directory —
as `AppendENVPath` append-mutations. -/
theorem c4_base_mutations_are_appends (plat : Platform) (fs : FS)
    (topdir abi : String) (versel : Option String) (verbose : Bool)
    (fx : List Effect)
    (hfx : configBlock plat fs topdir abi versel verbose = .ok fx) :
    ∃ archdir bindir libdir incdir,
      archdirOf abi = some archdir ∧
      layoutDirs plat fs topdir archdir = (bindir, libdir, incdir) ∧
      List.IsInfix
        [Effect.appendEnvPath "INCLUDE" (pjoin plat topdir incdir),
          Effect.appendEnvPath "LIB" (pjoin plat topdir libdir),
          Effect.appendEnvPath "PATH" (pjoin plat topdir bindir)] fx := by
  cases ha : archdirOf abi with
  | none =>
    simp only [configBlock, ha] at hfx
    exact Except.noConfusion hfx
  | some archdir =>
    rcases hld : layoutDirs plat fs topdir archdir with ⟨bindir, libdir, incdir⟩
    simp only [configBlock, ha, hld] at hfx
    obtain rfl := Except.ok.inj hfx
    exact ⟨archdir, bindir, libdir, incdir, rfl, hld,
      appendMiddleInfix _ _ _ _ _ _⟩

/-- **C4, amended, witness.** -/
theorem c4_witness :
    ∃ archdir bindir libdir incdir,
      archdirOf "x86_64" = some archdir ∧
      layoutDirs Platform.linux fsGood "/opt/good" archdir =
        (bindir, libdir, incdir) ∧
      List.IsInfix
        [Effect.appendEnvPath "INCLUDE" (pjoin Platform.linux "/opt/good" incdir),
          Effect.appendEnvPath "LIB" (pjoin Platform.linux "/opt/good" libdir),
          Effect.appendEnvPath "PATH" (pjoin Platform.linux "/opt/good" bindir)]
        [Effect.setVar "INTEL_FORTRAN_REDIST_DIR" (PyVal.str "/opt/good/lib/intel64_lin"),
          Effect.setVar "INTEL_FORTRAN_COMPILER_TOP" (PyVal.str "/opt/good"),
          Effect.appendEnvPath "INCLUDE" "/opt/good/compiler/include",
          Effect.appendEnvPath "LIB" "/opt/good/compiler/lib/intel64",
          Effect.appendEnvPath "PATH" "/opt/good/bin/intel64",
          Effect.appendEnvPath "LD_LIBRARY_PATH" "/opt/good/compiler/lib/intel64"] :=
  c4_base_mutations_are_appends Platform.linux fsGood "/opt/good" "x86_64"
    (some "17.0") false _ (by decide)

/-!
## C8 — the math-library subtree
-/

/-- **C8.** On Linux the three mkl layout fields are populated (as one
guarded assignment) exactly when `topdir/mkl/bin/<archdir>` exists, and
when it does not, the composer's path mutations are exactly the three base
appends plus the `LD_LIBRARY_PATH` append — no math-library mutation. -/
theorem c8_mkl_iff_no_mutations_when_absent (fs : FS) (topdir abi : String)
    (versel : Option String) (verbose : Bool) (archdir : String)
    (ha : archdirOf abi = some archdir) (fx : List Effect)
    (hfx : configBlock Platform.linux fs topdir abi versel verbose = .ok fx) :
    ((mklDirs Platform.linux fs topdir archdir).isSome =
      fs.pathExists (pjoin Platform.linux (pjoin Platform.linux
        (pjoin Platform.linux topdir "mkl") "bin") archdir)) ∧
    (fs.pathExists (pjoin Platform.linux (pjoin Platform.linux
        (pjoin Platform.linux topdir "mkl") "bin") archdir) = false →
      ∃ bindir libdir incdir,
        layoutDirs Platform.linux fs topdir archdir = (bindir, libdir, incdir) ∧
        fx.filter Effect.isAppendEnvPath =
          [Effect.appendEnvPath "INCLUDE" (pjoin Platform.linux topdir incdir),
            Effect.appendEnvPath "LIB" (pjoin Platform.linux topdir libdir),
            Effect.appendEnvPath "PATH" (pjoin Platform.linux topdir bindir),
            Effect.appendEnvPath "LD_LIBRARY_PATH"
              (pjoin Platform.linux topdir libdir)]) := by
  constructor
  · cases hchk : fs.pathExists (pjoin Platform.linux (pjoin Platform.linux
        (pjoin Platform.linux topdir "mkl") "bin") archdir) <;>
      simp [mklDirs, hchk]
  · intro hmkl
    have hmd : mklDirs Platform.linux fs topdir archdir = none := by
      simp [mklDirs, hmkl]
    rcases hld : layoutDirs Platform.linux fs topdir archdir with
      ⟨bindir, libdir, incdir⟩
    simp only [configBlock, ha, hld, hmd] at hfx
    obtain rfl := Except.ok.inj hfx
    refine ⟨bindir, libdir, incdir, rfl, ?_⟩
    cases verbose <;>
      simp [Effect.isAppendEnvPath, Platform.isWindows, List.filter_append]

/-- **C8, witness.** -/
theorem c8_witness :
    ((mklDirs Platform.linux fsGood "/opt/good" "intel64").isSome =
      fsGood.pathExists (pjoin Platform.linux (pjoin Platform.linux
        (pjoin Platform.linux "/opt/good" "mkl") "bin") "intel64")) ∧
    (fsGood.pathExists (pjoin Platform.linux (pjoin Platform.linux
        (pjoin Platform.linux "/opt/good" "mkl") "bin") "intel64") = false →
      ∃ bindir libdir incdir,
        layoutDirs Platform.linux fsGood "/opt/good" "intel64" =
          (bindir, libdir, incdir) ∧
        List.filter Effect.isAppendEnvPath
          [Effect.setVar "INTEL_FORTRAN_REDIST_DIR" (PyVal.str "/opt/good/lib/intel64_lin"),
            Effect.setVar "INTEL_FORTRAN_COMPILER_TOP" (PyVal.str "/opt/good"),
            Effect.appendEnvPath "INCLUDE" "/opt/good/compiler/include",
            Effect.appendEnvPath "LIB" "/opt/good/compiler/lib/intel64",
            Effect.appendEnvPath "PATH" "/opt/good/bin/intel64",
            Effect.appendEnvPath "LD_LIBRARY_PATH" "/opt/good/compiler/lib/intel64"] =
          [Effect.appendEnvPath "INCLUDE" (pjoin Platform.linux "/opt/good" incdir),
            Effect.appendEnvPath "LIB" (pjoin Platform.linux "/opt/good" libdir),
            Effect.appendEnvPath "PATH" (pjoin Platform.linux "/opt/good" bindir),
            Effect.appendEnvPath "LD_LIBRARY_PATH"
              (pjoin Platform.linux "/opt/good" libdir)]) :=
  c8_mkl_iff_no_mutations_when_absent fsGood "/opt/good" "x86_64"
    (some "17.0") false "intel64" (by decide) _ (by decide)

/-!
## C7 — order and duplicates of catalog lists
-/

/-- **C7, counterexample.** Two distinct directories matched by the *same*
glob pattern (`/opt/intel*/composer_xe_*`) both extract to the version
string `"2011.11.344"`, so the catalog list contains a duplicate
originating from a single discovery source. -/
theorem c7_counterexample :
    get_all_compiler_versions Platform.linux regEmpty fsDup =
      some ["2011.11.344", "2011.11.344"] ∧
    ¬ (["2011.11.344", "2011.11.344"] : List String).Nodup := by
  constructor
  · decide
  · decide

/-- **C7, amended.** Every catalog list is sorted descending in the
code-point lexicographic string order, and a registry root whose subkey
enumeration is duplicate-free contributes no duplicates; only the Linux
glob extraction can produce duplicates (from distinct directories with the
same extracted version). -/
theorem c7_sorted_and_registry_nodup :
    (∀ (plat : Platform) (reg : Registry) (fs : FS) (l : List String),
      get_all_compiler_versions plat reg fs = some l →
      List.Sorted (fun a b : String => strLe b a = true) l) ∧
    (∀ subkeys : List String, subkeys.Nodup →
      (extract_compiler_versions_from_registry (some subkeys)).Nodup) := by
  constructor
  · intro plat reg fs l h
    cases plat with
    | windows w =>
      simp only [get_all_compiler_versions] at h
      obtain rfl := Option.some.inj h
      exact List.sorted_insertionSort _ _
    | linux =>
      simp only [get_all_compiler_versions] at h
      obtain rfl := Option.some.inj h
      exact List.sorted_insertionSort _ _
    | other => simp [get_all_compiler_versions] at h
  · intro subkeys h
    simpa [extract_compiler_versions_from_registry] using h.filter pyFloatAccepts

/-- **C7, witness.** -/
theorem c7_witness :
    List.Sorted (fun a b : String => strLe b a = true)
      ["2011.11.344", "2011.11.344"] ∧
    (extract_compiler_versions_from_registry (some ["19.0", "2021.3"])).Nodup :=
  ⟨c7_sorted_and_registry_nodup.1 Platform.linux regEmpty fsDup
      ["2011.11.344", "2011.11.344"] (by decide),
    c7_sorted_and_registry_nodup.2 ["19.0", "2021.3"] (by decide)⟩

/-!
## Sanity checks of the runtime models on concrete inputs
-/

example : searchVersion "/opt/intel/composer_xe_2011_sp1.11.344"
    = some ("2011", "11.344") := by decide
example : searchVersion "/opt/intela/composer_xe_2011.11.344"
    = some ("2011", "11.344") := by decide
example : searchVersion "/opt/intel/compilers_and_libraries_2017.4.196"
    = some ("2017", "4.196") := by decide
example : searchNum "/opt/intel/composerxe-2011.4.184" = some "2011.4.184" := by
  decide
example : pyFloatAccepts "2011.11.344" = false := by decide
example : pyFloatAccepts "99.9" = true := by decide
example : intOfFloatStr "2017.4" = "2017" := by decide
